import Mathlib

/-
Verification of the flat-scraper pipeline: a shallow embedding of the
repository's field extractors (base_scraper.py, utils.py), filter evaluator
(filters.py), notification guard (notifier.py), SQLite persistence gateway
(database.py), scrape-cycle orchestrator (scheduler.py) and adapter
pagination (immonet_scraper.py, scout24_scraper.py), together with theorems
about them.

Modelling conventions:
  * Python strings are Lean `String`s / `List Char`; only ASCII case folding
    and ASCII whitespace (plus U+00A0, which Python treats as whitespace)
    are modelled, which covers every string handled by the program.
  * Python `float` values are modelled as exact rationals `ℚ` below the
    binary64 overflow threshold (precision loss is not modelled; every
    value-level claim evaluates short numerals where the two agree), and as
    an explicit infinity at or above it: `float(string)` does not raise on
    overflow, it returns `inf`, and `int(inf)` raises OverflowError — the
    control flow of extract_rooms depends on exactly this.
  * ISO-8601 timestamps are modelled as integer epoch seconds; lexicographic
    comparison of equally formatted ISO strings coincides with the numeric
    order on these integers.
  * Fallible Python code is embedded in `Except Unit` / `Except SendErr`;
    a `try/except` that returns `None` is embedded by mapping the error case
    of the inner call to `.ok none`.
-/

namespace FlatScraper

instance {ε α : Type} [DecidableEq ε] [DecidableEq α] : DecidableEq (Except ε α) := fun x y =>
  match x, y with
  | .ok a, .ok b =>
    if h : a = b then .isTrue (by rw [h])
    else .isFalse (fun he => h (by injection he))
  | .error a, .error b =>
    if h : a = b then .isTrue (by rw [h])
    else .isFalse (fun he => h (by injection he))
  | .ok _, .error _ => .isFalse (fun he => by injection he)
  | .error _, .ok _ => .isFalse (fun he => by injection he)

/-! ## Character and string helpers (Python `str` operations) -/

/-- Python whitespace for `str.strip` and the regex class `\s`
(ASCII whitespace plus the no-break space U+00A0). -/
def isPySpace (c : Char) : Bool :=
  c == ' ' || c == '\t' || c == '\n' || c == '\r' ||
    c == Char.ofNat 11 || c == Char.ofNat 12 || c == Char.ofNat 160

/-- ASCII case folding, Python `str.lower` on the strings this program sees. -/
def lowerChar (c : Char) : Char :=
  if 'A' ≤ c ∧ c ≤ 'Z' then Char.ofNat (c.toNat + 32) else c

def lowerList (l : List Char) : List Char := l.map lowerChar

/-- Python `str.strip()`. -/
def stripList (l : List Char) : List Char :=
  ((l.dropWhile isPySpace).reverse.dropWhile isPySpace).reverse

/-- Python substring containment `needle in haystack`. -/
def hasSub (needle : List Char) : List Char → Bool
  | [] => needle.isEmpty
  | c :: rest => needle.isPrefixOf (c :: rest) || hasSub needle rest

/-- Longest leading run of decimal digits, with the remaining characters. -/
def digitRun : List Char → List Char × List Char
  | [] => ([], [])
  | c :: cs =>
    if c.isDigit then
      let p := digitRun cs
      (c :: p.1, p.2)
    else ([], c :: cs)

/-- Leftmost match of the regex `\d+`: the first maximal digit run of the
text together with the characters following it, `none` when the text has no
digit. -/
def firstRun : List Char → Option (List Char × List Char)
  | [] => none
  | c :: cs =>
    if c.isDigit then some (c :: (digitRun cs).1, (digitRun cs).2)
    else firstRun cs

def digitsToNat (l : List Char) : Nat :=
  l.foldl (fun n c => 10 * n + (c.toNat - 48)) 0

/-- Python `int(s)` on a candidate digit string: succeeds exactly on a
nonempty all-digit string. -/
def pyIntRun (l : List Char) : Except Unit Int :=
  if !l.isEmpty && l.all Char.isDigit then .ok (Int.ofNat (digitsToNat l)) else .error ()

/-- The parsing core of Python `float(s)` on the numeral shapes produced by
this program: `digits`, `digits.digits`, `.digits`, `digits.`; any other
shape raises (`.error`).  The numeral value is kept exact as a rational,
built with `mkRat` so that it evaluates by kernel reduction; binary64
overflow to infinity is layered on top by `pyFloatOvf` where the source's
behaviour depends on it. -/
def pyFloat (l : List Char) : Except Unit ℚ :=
  let ip := l.takeWhile (fun c => c != '.')
  match l.dropWhile (fun c => c != '.') with
  | [] =>
    if !ip.isEmpty && ip.all Char.isDigit then
      .ok (mkRat (Int.ofNat (digitsToNat ip)) 1)
    else .error ()
  | _ :: frac =>
    if ip.all Char.isDigit && frac.all Char.isDigit &&
        !(ip.isEmpty && frac.isEmpty) then
      .ok (mkRat (Int.ofNat (digitsToNat ip * 10 ^ frac.length + digitsToNat frac))
        (10 ^ frac.length))
    else .error ()

/-- A Python float as returned by `float(string)`: a finite value (held
exact) or the IEEE infinity that string conversion yields on overflow —
`float` does not raise on an overflowing numeral, it returns `inf`. -/
inductive PyFloat
  | finite (q : ℚ)
  | inf
deriving DecidableEq

/-- The binary64 overflow threshold: round-to-nearest-even sends a real v
to +inf exactly when v ≥ 2^1024 - 2^970, the midpoint between the largest
finite double (2^1024 - 2^971) and 2^1024, the tie rounding to the even
2^1024.  Written as a literal so it evaluates without deep recursion;
`floatOverflowThreshold_eq` checks it against the closed form. -/
def floatOverflowThreshold : ℚ :=
  mkRat (Int.ofNat 179769313486231580793728971405303415079934132710037826936173778980444968292764750946649017977587207096330286416692887910946555547851940402630657488671505820681908902000708383676273854845817711531764475730270069855571366959622842914819860834936475292719074168444365510704342711559699508093042880177904174497792) 1

set_option maxRecDepth 4000 in
theorem floatOverflowThreshold_eq :
    floatOverflowThreshold = mkRat (Int.ofNat (2 ^ 1024 - 2 ^ 970)) 1 := by rfl

/-- Python `float(s)` including binary64 overflow: parse the numeral, then
return infinity when its value reaches the overflow threshold. -/
def pyFloatOvf (l : List Char) : Except Unit PyFloat :=
  (pyFloat l).map
    (fun q => if Rat.blt q floatOverflowThreshold then .finite q else .inf)

/-- Python `int()` applied to a float: truncates a finite value (the
numerals here are nonnegative, where truncation is the floor); raises
OverflowError on an infinity. -/
def pyFloatToInt : PyFloat → Except Unit Int
  | .finite q => .ok q.floor
  | .inf => .error ()

/-! ## Field extractors (BaseScraper.extract_* in scrapers/base_scraper.py,
and clean_price / extract_number in utils.py) -/

/-- Leftmost match of `(\d+)[,.](\d+)` as the pair of its two groups.
At a digit position the engine takes the maximal run greedily; shrinking the
run cannot help (the separator class matches no digit), so on failure the
search moves one character right, exactly as embedded here. -/
def findRoomsMatch : List Char → Option (List Char × List Char)
  | [] => none
  | c :: cs =>
    if c.isDigit then
      match (digitRun cs).2 with
      | sep :: d :: rest =>
        if (sep == ',' || sep == '.') && d.isDigit then
          some (c :: (digitRun cs).1, d :: (digitRun rest).1)
        else findRoomsMatch cs
      | _ => findRoomsMatch cs
    else findRoomsMatch cs

/-- BaseScraper.extract_rooms: `int(float("g1.g2"))` on a decimal match,
else the first plain integer, else `None`.  The `int`/`float` calls are not
guarded by `try` in the source, so the OverflowError that `int` raises on
an infinite float propagates out of the extractor. -/
def extract_rooms (s : String) : Except Unit (Option Int) :=
  if s.data.isEmpty then .ok none
  else
    match findRoomsMatch s.data with
    | some (g1, g2) =>
      match pyFloatOvf (g1 ++ '.' :: g2) with
      | .ok f => (pyFloatToInt f).map (fun n => some n)
      | .error e => .error e
    | none =>
      match firstRun s.data with
      | some p => (pyIntRun p.1).map (fun n => some n)
      | none => .ok none

/-- BaseScraper.extract_floor: "erdgeschoss"/"eg" → 0, then "dg"/
"dachgeschoss" → 99, then first integer, else `None`.  The containment
tests run on the lower-cased stripped text; the digit search runs on the
original text (digits are unaffected by case folding). -/
def extract_floor (s : String) : Except Unit (Option Int) :=
  if s.data.isEmpty then .ok none
  else
    let tl := lowerList (stripList s.data)
    if hasSub "erdgeschoss".data tl || tl == "eg".data then .ok (some 0)
    else if hasSub "dg".data tl || hasSub "dachgeschoss".data tl then .ok (some 99)
    else
      match firstRun s.data with
      | some p => (pyIntRun p.1).map (fun n => some n)
      | none => .ok none

/-- Up to `n` leading digits, greedily, with the rest (`\d{1,n}`). -/
def takeUpToNDigits : Nat → List Char → List Char × List Char
  | 0, l => ([], l)
  | _ + 1, [] => ([], [])
  | n + 1, c :: cs =>
    if c.isDigit then
      let p := takeUpToNDigits n cs
      (c :: p.1, p.2)
    else ([], c :: cs)

/-- Greedy `(?:\.\d{3})*`: consume groups of a dot followed by exactly three
digits, with the rest. -/
def starDotTriples : List Char → List Char × List Char
  | '.' :: a :: b :: c :: rest =>
    if a.isDigit && b.isDigit && c.isDigit then
      let p := starDotTriples rest
      ('.' :: a :: b :: c :: p.1, p.2)
    else ([], '.' :: a :: b :: c :: rest)
  | l => ([], l)

/-- Greedy `(?:,\d+)?`: a comma followed by a maximal digit run, or nothing. -/
def optCommaDigits : List Char → List Char
  | ',' :: d :: rest => if d.isDigit then ',' :: d :: (digitRun rest).1 else []
  | _ => []

/-- Leftmost match of `(\d{1,3}(?:\.\d{3})*(?:,\d+)?|\d+(?:,\d+)?)`.
At the first digit position the first alternative always succeeds (all of
its tail parts can match the empty string), so the second alternative is
never tried by the Python engine; the match is the greedy expansion of the
first alternative starting at the leftmost digit. -/
def priceSearch : List Char → Option (List Char)
  | [] => none
  | c :: cs =>
    if c.isDigit then
      let p1 := takeUpToNDigits 3 (c :: cs)
      let p2 := starDotTriples p1.2
      some (p1.1 ++ p2.1 ++ optCommaDigits p2.2)
    else priceSearch cs

/-- BaseScraper.extract_price: strip no-break spaces, match the
German-numeral regex, drop thousands dots, turn the comma into a decimal
point, and parse as float (the `float` call is wrapped in `try`, and on an
overflowing numeral `float` returns the value `inf` rather than raising, so
the extractor always returns a value; this embedding returns the exact
rational there — every claim about extract_price evaluates short numerals
below the overflow threshold, where the two agree). -/
def extract_price (s : String) : Except Unit (Option ℚ) :=
  if s.data.isEmpty then .ok none
  else
    let cleaned := stripList (s.data.filter (fun c => c != Char.ofNat 160))
    match priceSearch cleaned with
    | none => .ok none
    | some g =>
      let raw := (g.filter (fun c => c != '.')).map
        (fun c => if c = ',' then '.' else c)
      match pyFloat raw with
      | .ok q => .ok (some q)
      | .error _ => .ok none

/-- Character class `[€$£\s/Monatmonat]` removed by utils.clean_price. -/
def cleanPriceRemove (c : Char) : Bool :=
  isPySpace c || c == '€' || c == '$' || c == '£' || c == '/' ||
    c == 'M' || c == 'o' || c == 'n' || c == 'a' || c == 't' || c == 'm'

/-- Leftmost match of `\d+(?:\.\d+)?`. -/
def numSearch (l : List Char) : Option (List Char) :=
  match firstRun l with
  | none => none
  | some (run, rest) =>
    match rest with
    | '.' :: d :: rest2 =>
      if d.isDigit then some (run ++ '.' :: d :: (digitRun rest2).1)
      else some run
    | _ => some run

/-- utils.clean_price: remove currency symbols and the letters of "Monat",
normalise the German decimal format, then parse the first numeral (the
`float` call is wrapped in `try`; as in extract_price, an overflowing
numeral yields the value `inf` in Python and the exact rational here —
either way a value, never an exception). -/
def clean_price (s : String) : Except Unit (Option ℚ) :=
  if s.data.isEmpty then .ok none
  else
    let cleaned := s.data.filter (fun c => !cleanPriceRemove c)
    let cleaned2 :=
      if cleaned.contains ',' then
        (cleaned.filter (fun c => c != '.')).map (fun c => if c = ',' then '.' else c)
      else cleaned.filter (fun c => c != '.')
    match numSearch cleaned2 with
    | none => .ok none
    | some g =>
      match pyFloat g with
      | .ok q => .ok (some q)
      | .error _ => .ok none

/-- utils.extract_number: first integer of the text (the `int` call is
wrapped in `try`). -/
def extract_number (s : String) : Except Unit (Option Int) :=
  if s.data.isEmpty then .ok none
  else
    match firstRun s.data with
    | some p =>
      match pyIntRun p.1 with
      | .ok n => .ok (some n)
      | .error _ => .ok none
    | none => .ok none

/-! ## Basic lemmas about the scanners -/

theorem digitRun_all (l : List Char) : (digitRun l).1.all Char.isDigit = true := by
  induction l with
  | nil => rfl
  | cons c cs ih =>
    by_cases hc : c.isDigit = true
    · simp [digitRun, hc, ih]
    · simp [digitRun, hc]

theorem firstRun_all {l : List Char} {p : List Char × List Char}
    (h : firstRun l = some p) : p.1 ≠ [] ∧ p.1.all Char.isDigit = true := by
  induction l with
  | nil => cases h
  | cons c cs ih =>
    by_cases hc : c.isDigit = true
    · simp only [firstRun, hc, if_true, Option.some.injEq] at h
      subst h
      exact ⟨by simp, by simp [hc, digitRun_all]⟩
    · simp only [firstRun, hc, if_false] at h
      exact ih h

theorem findRoomsMatch_all {l g1 g2 : List Char}
    (h : findRoomsMatch l = some (g1, g2)) :
    g1 ≠ [] ∧ g1.all Char.isDigit = true ∧ g2 ≠ [] ∧ g2.all Char.isDigit = true := by
  induction l with
  | nil => cases h
  | cons c cs ih =>
    rw [findRoomsMatch] at h
    by_cases hc : c.isDigit = true
    · rw [if_pos hc] at h
      split at h
      · rename_i sep d rest heq
        split at h
        · rename_i hcond
          injection h with h
          injection h with h1 h2
          subst h1; subst h2
          have hd : d.isDigit = true := by
            simp only [Bool.and_eq_true] at hcond
            exact hcond.2
          exact ⟨by simp, by simp [hc, digitRun_all], by simp,
            by simp [hd, digitRun_all]⟩
        · exact ih h
      all_goals exact ih h
    · rw [if_neg hc] at h
      exact ih h

theorem isDigit_ne_dot {c : Char} (h : c.isDigit = true) : (c != '.') = true := by
  rcases eq_or_ne c '.' with rfl | hne
  · exact absurd h (by decide)
  · simp [hne]

theorem splitDot_append {g1 g2 : List Char} (h : g1.all Char.isDigit = true) :
    (g1 ++ '.' :: g2).takeWhile (fun c => c != '.') = g1 ∧
      (g1 ++ '.' :: g2).dropWhile (fun c => c != '.') = '.' :: g2 := by
  induction g1 with
  | nil => exact ⟨by simp [List.takeWhile], by simp [List.dropWhile]⟩
  | cons a as ih =>
    simp only [List.all_cons, Bool.and_eq_true] at h
    have hne := isDigit_ne_dot h.1
    have hih := ih h.2
    constructor
    · simpa [List.takeWhile_cons, hne] using hih.1
    · simpa [List.dropWhile_cons, hne] using hih.2

theorem pyFloat_decimal {g1 g2 : List Char} (h1 : g1.all Char.isDigit = true)
    (h2 : g2.all Char.isDigit = true) (hne : g1 ≠ []) :
    pyFloat (g1 ++ '.' :: g2) =
      .ok (mkRat (Int.ofNat (digitsToNat g1 * 10 ^ g2.length + digitsToNat g2))
        (10 ^ g2.length)) := by
  obtain ⟨ht, hd⟩ := @splitDot_append g1 g2 h1
  have hempty : g1.isEmpty = false := by
    cases g1 with
    | nil => exact absurd rfl hne
    | cons a as => rfl
  simp only [pyFloat, ht, hd, h1, h2, hempty, Bool.and_true, Bool.true_and,
    Bool.false_and, Bool.not_false, if_true]

theorem pyIntRun_ok {l : List Char} (hne : l ≠ []) (hd : l.all Char.isDigit = true) :
    pyIntRun l = .ok (Int.ofNat (digitsToNat l)) := by
  have hempty : l.isEmpty = false := by
    cases l with
    | nil => exact absurd rfl hne
    | cons a as => rfl
  simp [pyIntRun, hempty, hd]

/-! ## Claim C6: floor extraction -/

/-- Spec-side floor extractor, following the claim's wording: 0 when the
lower-cased trimmed text contains "erdgeschoss" or is exactly "eg",
otherwise 99 when it contains "dg" or "dachgeschoss", otherwise the first
integer of the text, otherwise no value. -/
def floorSpec (s : String) : Option Int :=
  let tl := lowerList (stripList s.data)
  if hasSub "erdgeschoss".data tl || tl == "eg".data then some 0
  else if hasSub "dg".data tl || hasSub "dachgeschoss".data tl then some 99
  else (firstRun s.data).map (fun p => (digitsToNat p.1 : Int))

/-- The floor extractor agrees with the claim-side `floorSpec` on every
input string (shared by the C6 and C9 theorems). -/
theorem extract_floor_eq (s : String) : extract_floor s = .ok (floorSpec s) := by
  rcases s with ⟨l⟩
  cases l with
  | nil => rfl
  | cons c cs =>
    show extract_floor ⟨c :: cs⟩ = _
    rw [extract_floor, floorSpec]
    simp only [List.isEmpty_cons, if_false, Bool.false_eq_true]
    by_cases hA : (hasSub "erdgeschoss".data (lowerList (stripList (c :: cs))) ||
        lowerList (stripList (c :: cs)) == "eg".data) = true
    · simp [hA]
    · simp only [hA, if_false, Bool.false_eq_true]
      by_cases hB : (hasSub "dg".data (lowerList (stripList (c :: cs))) ||
          hasSub "dachgeschoss".data (lowerList (stripList (c :: cs)))) = true
      · simp [hB]
      · simp only [hB, if_false, Bool.false_eq_true]
        rcases hfr : firstRun (c :: cs) with _ | p
        · simp
        · obtain ⟨hne, hdig⟩ := firstRun_all hfr
          simp [pyIntRun_ok hne hdig, Except.map]

/-- C6: the floor extractor agrees with the claim's description on every
input string, and in particular maps "Erdgeschoss" to 0, "4. OG" to 4 and
"Dachgeschoss" to 99. -/
theorem extract_floor_spec :
    (∀ s : String, extract_floor s = .ok (floorSpec s)) ∧
      extract_floor "Erdgeschoss" = .ok (some 0) ∧
      extract_floor "4. OG" = .ok (some 4) ∧
      extract_floor "Dachgeschoss" = .ok (some 99) :=
  ⟨fun s => extract_floor_eq s, by rfl, by rfl, by rfl⟩

/-! ## Claim C3: price extraction examples -/

/-- C3 evaluation: the price extractor maps "1.200,50 €" to 1200.50 and ""
to no value as the claim states, but maps "1500 €" to 150.0, not 1500.0:
the regex alternation tries `\d{1,3}(?:\.\d{3})*(?:,\d+)?` first, which
succeeds on the first three digits "150" (its tail parts match the empty
string), so the plain-numeral alternative `\d+(?:,\d+)?` is unreachable. -/
theorem extract_price_examples :
    extract_price "1.200,50 €" = .ok (some (1200.5 : ℚ)) ∧
      extract_price "" = .ok none ∧
      extract_price "1500 €" = .ok (some (150 : ℚ)) ∧
      extract_price "1500 €" ≠ .ok (some (1500 : ℚ)) := by
  have e1 : extract_price "1.200,50 €" = .ok (some (mkRat 120050 100)) := by decide
  have e3 : extract_price "1500 €" = .ok (some (mkRat 150 1)) := by decide
  have v1 : (mkRat 120050 100 : ℚ) = (1200.5 : ℚ) := by
    rw [Rat.mkRat_eq_divInt, Rat.divInt_eq_div]
    norm_num
  have v3 : (mkRat 150 1 : ℚ) = (150 : ℚ) := by
    rw [Rat.mkRat_eq_divInt, Rat.divInt_eq_div]
    norm_num
  refine ⟨by rw [e1, v1], by rfl, by rw [e3, v3], ?_⟩
  rw [e3, v3]
  intro h
  injection h with h
  injection h with h
  norm_num at h

/-! ## Claim C9: totality of the field extractors, and the extract_rooms overflow -/

/-- The rooms text on which extract_rooms overflows: a 310-digit first
group ("1" followed by 309 zeros) and the decimal group "5".  Its value
exceeds the binary64 range, so Python\'s `float` returns `inf` and the
unguarded `int` raises OverflowError. -/
def overflowRoomsText : String := ⟨'1' :: (List.replicate 309 '0' ++ [',', '5'])⟩

set_option maxRecDepth 20000 in
/-- C9: the claim that every field extractor never raises is false for
extract_rooms — on `overflowRoomsText` its unguarded `int(float(...))`
raises OverflowError (first conjunct, an uncaught `.error`), small inputs
still succeeding (second and third conjuncts) — while the other four
extractors are total on every string: extract_floor and extract_number
guard or feed `int` only nonempty digit runs, and extract_price and
clean_price wrap their `float` call in `try` (an overflowing numeral yields
the value `inf` in Python, not an exception). -/
theorem extract_rooms_overflow :
    extract_rooms overflowRoomsText = .error () ∧
      extract_rooms "3,5 Zimmer" = .ok (some 3) ∧
      extract_rooms "" = .ok none ∧
      (∀ s : String, ∃ v, extract_floor s = .ok v) ∧
      (∀ s : String, ∃ v, extract_price s = .ok v) ∧
      (∀ s : String, ∃ v, clean_price s = .ok v) ∧
      (∀ s : String, ∃ v, extract_number s = .ok v) := by
  refine ⟨by decide, by decide, by decide, ?_, ?_, ?_, ?_⟩
  · intro s
    exact ⟨floorSpec s, extract_floor_eq s⟩
  · intro s
    rw [extract_price]
    by_cases he : s.data.isEmpty = true
    · exact ⟨none, by simp [he]⟩
    · simp only [he, if_false, Bool.false_eq_true]
      rcases hm : priceSearch (stripList (s.data.filter (fun c => c != Char.ofNat 160))) with _ | g
      · exact ⟨none, rfl⟩
      · rcases hf : pyFloat ((g.filter (fun c => c != '.')).map
            (fun c => if c = ',' then '.' else c)) with e | q
        · exact ⟨none, by simp [hf]⟩
        · exact ⟨some q, by simp [hf]⟩
  · intro s
    rw [clean_price]
    by_cases he : s.data.isEmpty = true
    · exact ⟨none, by simp [he]⟩
    · simp only [he, if_false, Bool.false_eq_true]
      rcases hm : numSearch _ with _ | g
      · exact ⟨none, by simp [hm]⟩
      · rcases hf : pyFloat g with e | q
        · exact ⟨none, by simp [hm, hf]⟩
        · exact ⟨some q, by simp [hm, hf]⟩
  · intro s
    rw [extract_number]
    by_cases he : s.data.isEmpty = true
    · exact ⟨none, by simp [he]⟩
    · simp only [he, if_false, Bool.false_eq_true]
      rcases hfr : firstRun s.data with _ | p
      · exact ⟨none, rfl⟩
      · rcases hi : pyIntRun p.1 with e | n
        · exact ⟨none, by simp [hi]⟩
        · exact ⟨some n, by simp [hi]⟩

/-! ## Data model: listings, stored rows, timestamps -/

/-- Value of a `scraped_at` field as seen by `datetime.fromisoformat`:
absent/empty, an unparseable string, a naive ISO timestamp (no timezone), or
a timezone-aware one.  Timestamps are integer epoch seconds; a naive
timestamp is recorded by the wall-clock value it denotes when read as UTC,
which is exactly how `should_notify` interprets it
(`replace(tzinfo=timezone.utc)`). -/
inductive ScrapedVal
  | missing
  | unparseable
  | naive (t : Int)
  | aware (t : Int)
deriving DecidableEq

/-- A listing dictionary as passed to the filter service and notifier. -/
structure Listing where
  site_id : Option String
  url : String
  address : Option String
  rooms : Option Int
  floor : Option Int
  price : Option ℚ
  area : Option String
  description : Option String
  scraped_at : ScrapedVal
  notified_at : Option Int
  is_active : Int
deriving DecidableEq

/-- The dictionary a scraper hands to `add_listing`; `scraped_at` and
`is_active` default to the insert time and 1 via `data.get`. -/
structure ListingData where
  site_id : Option String
  url : String
  address : Option String
  rooms : Option Int
  floor : Option Int
  price : Option ℚ
  area : Option String
  description : Option String
  scraped_at : Option ScrapedVal
  is_active : Option Int
deriving DecidableEq

/-! ## Filter evaluator (filters.py, FilterService) -/

/-- Effective search criteria after dictionary merging. -/
structure Criteria where
  min_rooms : Int
  max_rooms : Int
  min_floor : Int
  max_price : ℚ
  areas : List String
  exclude_keywords : List String
deriving DecidableEq

/-- A criteria dictionary override: keys that are present replace the
defaults under `{**defaults, **criteria}`. -/
structure CriteriaOverride where
  min_rooms : Option Int
  max_rooms : Option Int
  min_floor : Option Int
  max_price : Option ℚ
  areas : Option (List String)
  exclude_keywords : Option (List String)

/-- FilterService.DEFAULT_CRITERIA. -/
def DEFAULT_CRITERIA : Criteria := ⟨2, 4, 2, 1500, [], []⟩

/-- Python dict merge `{**base, **override}` on criteria dictionaries. -/
def mergeCriteria (base : Criteria) (o : CriteriaOverride) : Criteria :=
  ⟨o.min_rooms.getD base.min_rooms, o.max_rooms.getD base.max_rooms,
    o.min_floor.getD base.min_floor, o.max_price.getD base.max_price,
    o.areas.getD base.areas, o.exclude_keywords.getD base.exclude_keywords⟩

/-- `((listing.get("area") or "") + " " + (listing.get("address") or "")).lower()`. -/
def combinedLocation (l : Listing) : List Char :=
  lowerList ((l.area.getD "") ++ " " ++ (l.address.getD "")).data

/-- `((listing.get("description") or "") + " " + (listing.get("address") or "")).lower()`. -/
def searchText (l : Listing) : List Char :=
  lowerList ((l.description.getD "") ++ " " ++ (l.address.getD "")).data

/-- Rooms clause: reject when present and outside `min_rooms ≤ r ≤ max_rooms`. -/
def rooms_ok (l : Listing) (c : Criteria) : Bool :=
  match l.rooms with
  | some r => decide (c.min_rooms ≤ r ∧ r ≤ c.max_rooms)
  | none => true

/-- Floor clause: reject when present and `floor < min_floor`. -/
def floor_ok (l : Listing) (c : Criteria) : Bool :=
  match l.floor with
  | some f => !decide (f < c.min_floor)
  | none => true

/-- Price clause: reject when present and `price > max_price`. -/
def price_ok (l : Listing) (c : Criteria) : Bool :=
  match l.price with
  | some p => !decide (c.max_price < p)
  | none => true

/-- Areas clause: when `areas` is non-empty, some area must occur
case-insensitively in area + " " + address. -/
def areas_ok (l : Listing) (c : Criteria) : Bool :=
  if c.areas.isEmpty then true
  else c.areas.any (fun a => hasSub (lowerList a.data) (combinedLocation l))

/-- Exclusion clause: when `exclude_keywords` is non-empty, no keyword may
occur case-insensitively in description + " " + address. -/
def excl_ok (l : Listing) (c : Criteria) : Bool :=
  if c.exclude_keywords.isEmpty then true
  else !c.exclude_keywords.any (fun kw => hasSub (lowerList kw.data) (searchText l))

/-- FilterService.apply_filters on already-merged effective criteria. -/
def apply_filters (l : Listing) (c : Criteria) : Bool :=
  rooms_ok l c && floor_ok l c && price_ok l c && areas_ok l c && excl_ok l c

/-- Spec-side matching predicate, following the claim: every applicable
clause passes, where a clause with an absent listing field is skipped and
the areas / exclusion clauses are skipped for empty criteria lists. -/
def MatchesSpec (l : Listing) (c : Criteria) : Prop :=
  (∀ r, l.rooms = some r → c.min_rooms ≤ r ∧ r ≤ c.max_rooms) ∧
    (∀ f, l.floor = some f → c.min_floor ≤ f) ∧
    (∀ p, l.price = some p → p ≤ c.max_price) ∧
    (c.areas ≠ [] →
      ∃ a ∈ c.areas, hasSub (lowerList a.data) (combinedLocation l) = true) ∧
    (c.exclude_keywords ≠ [] →
      ∀ kw ∈ c.exclude_keywords, hasSub (lowerList kw.data) (searchText l) = false)

/-- The C5 example listing: `{rooms: None, price: 1200}`. -/
def exampleListing : Listing :=
  ⟨none, "", none, none, none, some 1200, none, none, .missing, none, 1⟩

/-- The C5 example criteria override: `{min_rooms: 2, max_rooms: 4, max_price: 1500}`. -/
def exampleOverride : CriteriaOverride :=
  ⟨some 2, some 4, none, some 1500, none, none⟩

/-- C5: `apply_filters` accepts a listing exactly when every applicable
clause passes (absent fields and empty criteria lists are skipped), and the
example listing `{rooms: None, price: 1200}` matches the example criteria
merged over the defaults. -/
theorem apply_filters_spec :
    (∀ (l : Listing) (c : Criteria), apply_filters l c = true ↔ MatchesSpec l c) ∧
      apply_filters exampleListing (mergeCriteria DEFAULT_CRITERIA exampleOverride) = true := by
  constructor
  · intro l c
    have hrooms : rooms_ok l c = true ↔
        (∀ r, l.rooms = some r → c.min_rooms ≤ r ∧ r ≤ c.max_rooms) := by
      cases h : l.rooms <;> simp [rooms_ok, h]
    have hfloor : floor_ok l c = true ↔ (∀ f, l.floor = some f → c.min_floor ≤ f) := by
      cases h : l.floor <;> simp [floor_ok, h]
    have hprice : price_ok l c = true ↔ (∀ p, l.price = some p → p ≤ c.max_price) := by
      cases h : l.price <;> simp [price_ok, h]
    have hareas : areas_ok l c = true ↔ (c.areas ≠ [] →
        ∃ a ∈ c.areas, hasSub (lowerList a.data) (combinedLocation l) = true) := by
      cases h : c.areas <;> simp [areas_ok, h]
    have hexcl : excl_ok l c = true ↔ (c.exclude_keywords ≠ [] →
        ∀ kw ∈ c.exclude_keywords, hasSub (lowerList kw.data) (searchText l) = false) := by
      cases h : c.exclude_keywords with
      | nil => simp [excl_ok, h]
      | cons k ks =>
        simp [excl_ok, h, List.any_eq_false, Bool.not_eq_true']
    rw [apply_filters, MatchesSpec]
    simp only [Bool.and_eq_true, hrooms, hfloor, hprice, hareas, hexcl]
    tauto
  · decide

/-! ## Notification guard (notifier.py, NotificationService.should_notify) -/

/-- NotificationService.should_notify: no notification when `notified_at`
is already set, or `scraped_at` is absent/unparseable; otherwise require
`scraped_at ≥ now - hours`, reading a naive timestamp as UTC. -/
def should_notify (now : Int) (l : Listing) (hours : Int) : Bool :=
  if l.notified_at.isSome then false
  else
    match l.scraped_at with
    | .missing => false
    | .unparseable => false
    | .naive t => decide (now - hours * 3600 ≤ t)
    | .aware t => decide (now - hours * 3600 ≤ t)

/-- A listing with the given notification state (other fields irrelevant to
`should_notify`). -/
def notifyListing (na : Option Int) (sv : ScrapedVal) : Listing :=
  ⟨none, "", none, none, none, none, none, none, sv, na, 1⟩

/-- C4: with a 24-hour window, `should_notify` is false whenever
`notified_at` is set, false when `scraped_at` is absent or unparseable, and
otherwise true exactly when `scraped_at` (naive read as UTC) is at or after
`now` minus 24 hours; in particular false at 25 hours ago and true at 23
hours ago. -/
theorem should_notify_spec :
    (∀ (now : Int) (l : Listing) (t : Int), l.notified_at = some t →
        should_notify now l 24 = false) ∧
      (∀ (now : Int) (l : Listing), l.notified_at = none →
        l.scraped_at = .missing ∨ l.scraped_at = .unparseable →
        should_notify now l 24 = false) ∧
      (∀ (now t : Int) (l : Listing), l.notified_at = none →
        l.scraped_at = .naive t ∨ l.scraped_at = .aware t →
        (should_notify now l 24 = true ↔ now - 86400 ≤ t)) ∧
      should_notify 0 (notifyListing none (.aware (-(25 * 3600)))) 24 = false ∧
      should_notify 0 (notifyListing none (.naive (-(23 * 3600)))) 24 = true := by
  refine ⟨?_, ?_, ?_, by decide, by decide⟩
  · intro now l t h
    simp [should_notify, h]
  · intro now l h hv
    rcases hv with hv | hv <;> simp [should_notify, h, hv]
  · intro now t l h hv
    rcases hv with hv | hv <;> simp [should_notify, h, hv]

/-- Witness for C4 at a concrete input: a record already notified is never
renotified. -/
theorem should_notify_spec_witness :
    should_notify 0 (notifyListing (some 5) (.aware 0)) 24 = false :=
  should_notify_spec.1 0 (notifyListing (some 5) (.aware 0)) 5 rfl

/-! ## Persistence gateway (database.py) -/

/-- A stored row of the `listings` table. -/
structure Row extends Listing where
  id : Nat
  created_at : Int
  updated_at : Int
deriving DecidableEq

/-- The listings table, with the next AUTOINCREMENT id. -/
structure DB where
  rows : List Row
  next_id : Nat
deriving DecidableEq

/-- The row written by the INSERT arm of the upsert:
`created_at = updated_at = now`, `notified_at` NULL, defaults applied. -/
def newRow (id : Nat) (d : ListingData) (now : Int) : Row :=
  { id := id, url := d.url, site_id := d.site_id, address := d.address,
    rooms := d.rooms, floor := d.floor, price := d.price, area := d.area,
    description := d.description, scraped_at := d.scraped_at.getD (.aware now),
    notified_at := none, is_active := d.is_active.getD 1,
    created_at := now, updated_at := now }

/-- The `ON CONFLICT(url) DO UPDATE` arm: overwrite the descriptive fields
and `updated_at`; keep `id`, `url`, `created_at` and `notified_at`. -/
def updateRow (old : Row) (d : ListingData) (now : Int) : Row :=
  { old with site_id := d.site_id, address := d.address, rooms := d.rooms,
             floor := d.floor, price := d.price, area := d.area,
             description := d.description,
             scraped_at := d.scraped_at.getD (.aware now),
             is_active := d.is_active.getD 1, updated_at := now }

/-- The per-row effect of the UPDATE arm: rows with the conflicting url are
overwritten, all others untouched. -/
def updIf (u : String) (d : ListingData) (now : Int) (r : Row) : Row :=
  if r.url == u then updateRow r d now else r

/-- database.add_listing: a single conditional insert-or-update keyed on
`url` (SQLite upsert), not a separate read followed by a write. -/
def add_listing (db : DB) (d : ListingData) (now : Int) : DB :=
  if db.rows.any (fun r => r.url == d.url) then
    { db with rows := db.rows.map (updIf d.url d now) }
  else
    { rows := db.rows ++ [newRow db.next_id d now], next_id := db.next_id + 1 }

/-- database.is_duplicate: existence check by `url`. -/
def is_duplicate (db : DB) (u : String) : Bool :=
  db.rows.any (fun r => r.url == u)

/-- database.get_listing_by_url restricted to a row list (`SELECT ... WHERE
url = ?` returns the first match). -/
def find_by_url (rows : List Row) (u : String) : Option Row :=
  rows.find? (fun r => r.url == u)

/-- SQL comparison `scraped_at > cutoff` on ISO strings: lexicographic
comparison of equal-format ISO strings is chronological; a NULL-like or
non-timestamp value never satisfies the scrapers\' cutoff comparison. -/
def scrapedAfter : ScrapedVal → Int → Bool
  | .naive t, c => decide (c < t)
  | .aware t, c => decide (c < t)
  | _, _ => false

/-- database.get_new_listings: rows with `scraped_at > now - hours` and
`notified_at IS NULL`. -/
def get_new_listings (db : DB) (now : Int) (hours : Int) : List Row :=
  db.rows.filter
    (fun r => scrapedAfter r.scraped_at (now - hours * 3600) && r.notified_at.isNone)

/-- The per-row effect of database.mark_notified. -/
def markRow (i : Nat) (now : Int) (r : Row) : Row :=
  if r.id == i then { r with notified_at := some now } else r

/-- database.mark_notified: set `notified_at = now` on the row with the
given id. -/
def mark_notified (db : DB) (i : Nat) (now : Int) : DB :=
  { db with rows := db.rows.map (markRow i now) }

/-! ### Upsert lemmas -/

theorem find?_map_upd (rows : List Row) (u : String) (d : ListingData) (t : Int) :
    find_by_url (rows.map (updIf u d t)) u
      = (find_by_url rows u).map (fun r => updateRow r d t) := by
  induction rows with
  | nil => rfl
  | cons r rs ih =>
    by_cases hp : (r.url == u) = true
    · have hupd : updIf u d t r = updateRow r d t := by rw [updIf, if_pos hp]
      have hp2 : ((updateRow r d t).url == u) = true := hp
      rw [List.map_cons, hupd, find_by_url,
        @List.find?_cons_of_pos Row (fun r => r.url == u) (updateRow r d t)
          (List.map (updIf u d t) rs) hp2,
        find_by_url, @List.find?_cons_of_pos Row (fun r => r.url == u) r rs hp]
      rfl
    · have hupd : updIf u d t r = r := by rw [updIf, if_neg hp]
      rw [List.map_cons, hupd, find_by_url,
        @List.find?_cons_of_neg Row (fun r => r.url == u) r
          (List.map (updIf u d t) rs) hp,
        find_by_url, @List.find?_cons_of_neg Row (fun r => r.url == u) r rs hp]
      exact ih

theorem countP_map_upd (rows : List Row) (u : String) (d : ListingData) (t : Int) :
    (rows.map (updIf u d t)).countP (fun r => r.url == u)
      = rows.countP (fun r => r.url == u) := by
  induction rows with
  | nil => rfl
  | cons r rs ih =>
    by_cases hp : (r.url == u) = true
    · have hupd : updIf u d t r = updateRow r d t := by rw [updIf, if_pos hp]
      have hp2 : ((updateRow r d t).url == u) = true := hp
      rw [List.map_cons, hupd, List.countP_cons, List.countP_cons, if_pos hp2,
        if_pos hp, ih]
    · have hupd : updIf u d t r = r := by rw [updIf, if_neg hp]
      rw [List.map_cons, hupd, List.countP_cons, List.countP_cons, if_neg hp, ih]

/-- C1: upserting the same record twice starting from a store without its
URL leaves exactly one row with that URL; that row\'s `created_at` is the
first call\'s timestamp, its `updated_at` the second call\'s, `notified_at`
is still NULL, and every descriptive field is the one supplied (or
defaulted) by the second call.  Moreover, on any store already containing
the URL, the upsert preserves `notified_at` and `created_at` of the stored
row. -/
theorem add_listing_upsert (db : DB) (d : ListingData) (t1 t2 : Int)
    (hfresh : find_by_url db.rows d.url = none) :
    ((add_listing (add_listing db d t1) d t2).rows.countP (fun r => r.url == d.url) = 1) ∧
      (∃ row, find_by_url (add_listing (add_listing db d t1) d t2).rows d.url = some row ∧
        row.created_at = t1 ∧ row.updated_at = t2 ∧ row.notified_at = none ∧
        row.site_id = d.site_id ∧ row.address = d.address ∧ row.rooms = d.rooms ∧
        row.floor = d.floor ∧ row.price = d.price ∧ row.area = d.area ∧
        row.description = d.description ∧
        row.scraped_at = d.scraped_at.getD (.aware t2) ∧
        row.is_active = d.is_active.getD 1) ∧
      (∀ (db2 : DB) (old : Row), find_by_url db2.rows d.url = some old →
        ∃ row, find_by_url (add_listing db2 d t2).rows d.url = some row ∧
          row.notified_at = old.notified_at ∧ row.created_at = old.created_at) := by
  have hall : ∀ r ∈ db.rows, ¬ (r.url == d.url) = true :=
    List.find?_eq_none.mp hfresh
  have hany : db.rows.any (fun r => r.url == d.url) = false :=
    List.any_eq_false.mpr hall
  have hcount0 : db.rows.countP (fun r => r.url == d.url) = 0 :=
    List.countP_eq_zero.mpr hall
  have hcond1 : ¬ (db.rows.any (fun r => r.url == d.url) = true) := by
    rw [hany]
    exact Bool.false_ne_true
  have hstep1 : add_listing db d t1
      = ⟨db.rows ++ [newRow db.next_id d t1], db.next_id + 1⟩ := by
    rw [add_listing, if_neg hcond1]
  have hnewurl : ((newRow db.next_id d t1).url == d.url) = true := by
    simp [newRow]
  have hany2 : ((⟨db.rows ++ [newRow db.next_id d t1], db.next_id + 1⟩ : DB)).rows.any
      (fun r => r.url == d.url) = true := by
    show (db.rows ++ [newRow db.next_id d t1]).any (fun r => r.url == d.url) = true
    rw [List.any_append]
    simp [hnewurl]
  have hstep2 : add_listing (add_listing db d t1) d t2
      = ⟨(db.rows ++ [newRow db.next_id d t1]).map (updIf d.url d t2),
          db.next_id + 1⟩ := by
    rw [hstep1, add_listing, if_pos hany2]
  have hfind : find_by_url (db.rows ++ [newRow db.next_id d t1]) d.url
      = some (newRow db.next_id d t1) := by
    rw [find_by_url, List.find?_append]
    rw [find_by_url] at hfresh
    rw [hfresh, @List.find?_cons_of_pos Row (fun r => r.url == d.url)
      (newRow db.next_id d t1) [] hnewurl]
    rfl
  refine ⟨?_, ?_, ?_⟩
  · rw [hstep2]
    show ((db.rows ++ [newRow db.next_id d t1]).map (updIf d.url d t2)).countP _ = 1
    rw [countP_map_upd, List.countP_append, hcount0, List.countP_cons]
    simp [hnewurl]
  · refine ⟨updateRow (newRow db.next_id d t1) d t2, ?_, rfl, rfl, rfl, rfl,
      rfl, rfl, rfl, rfl, rfl, rfl, rfl, rfl⟩
    rw [hstep2]
    show find_by_url ((db.rows ++ [newRow db.next_id d t1]).map (updIf d.url d t2)) _ = _
    rw [find?_map_upd, hfind]
    rfl
  · intro db2 old hold
    have hmem : old ∈ db2.rows :=
      @List.mem_of_find?_eq_some Row (fun r => r.url == d.url) old db2.rows hold
    have hpred : (old.url == d.url) = true :=
      @List.find?_some Row (fun r => r.url == d.url) old db2.rows hold
    have hany3 : db2.rows.any (fun r => r.url == d.url) = true :=
      List.any_eq_true.mpr ⟨old, hmem, hpred⟩
    refine ⟨updateRow old d t2, ?_, rfl, rfl⟩
    rw [add_listing, if_pos hany3]
    show find_by_url (db2.rows.map (updIf d.url d t2)) _ = _
    rw [find?_map_upd, hold]
    rfl

/-- A concrete listing record used by the witnesses. -/
def exData : ListingData :=
  ⟨some "immonet_abc", "https://example.org/expose/1", some "Teststr. 1, Mitte",
    some 3, some 2, some 1200, some "Mitte", none, some (.aware 100), none⟩

/-- Witness for C1: upserting `exData` twice into the empty store leaves
exactly one row with its URL. -/
theorem add_listing_upsert_witness :
    (add_listing (add_listing ⟨[], 0⟩ exData 1) exData 2).rows.countP
      (fun r => r.url == exData.url) = 1 :=
  (add_listing_upsert ⟨[], 0⟩ exData 1 2 rfl).1

/-! ## Scout24 adapter construction (scrapers/scout24_scraper.py) -/

/-- Python-level construction errors. -/
inductive PyErr
  | typeError
deriving DecidableEq

/-- An argument passed to a scraper constructor. -/
inductive InitArg
  | str (s : String)
  | proxyList (p : Option (List String))

/-- The state BaseScraper.__init__ builds (HTTP session and logger are
external collaborators and carry no data relevant here). -/
structure BaseScraperState where
  base_url : String

/-- BaseScraper.__init__(self, base_url): its signature accepts exactly one
argument besides self; calling it with any other argument list raises
TypeError. -/
def baseScraperInit (args : List InitArg) : Except PyErr BaseScraperState :=
  match args with
  | [.str u] => .ok ⟨u⟩
  | _ => .error .typeError

/-- Scout24Scraper.__init__(self, base_url, proxies=None): unconditionally
forwards both `base_url` and `proxies` to BaseScraper.__init__
(`super().__init__(base_url, proxies)`). -/
def scout24Init (base_url : String) (proxies : Option (List String)) :
    Except PyErr BaseScraperState :=
  baseScraperInit [.str base_url, .proxyList proxies]

/-- C10: every construction of Scout24Scraper raises TypeError — in
particular the one in main.py, which passes a single base URL (so `proxies`
defaults to None) — because __init__ always forwards two positional
arguments to the one-argument BaseScraper.__init__. -/
theorem scout24_init_raises :
    (∀ (u : String) (p : Option (List String)), scout24Init u p = .error .typeError) ∧
      scout24Init "https://www.immobilienscout24.de/Suche/de/berlin/berlin/wohnung-mieten" none
        = .error .typeError :=
  ⟨fun _ _ => rfl, rfl⟩

/-! ## Immonet adapter pagination (scrapers/immonet_scraper.py) -/

/-- BaseScraper.validate_listing: both `url` and `site_id` non-empty. -/
def validate_listing (d : ListingData) : Bool :=
  !d.url.isEmpty && !(d.site_id.getD "").isEmpty

/-- Outcome of fetching and selecting items on one page, abstracting
`get_soup` (which catches all request errors and returns None after its
retries) plus the item selectors: `none` is a failed fetch, `some items`
the selected item list. -/
def stopsAt {α : Type} (fetch : Nat → Option (List α)) (q : Nat) : Bool :=
  match fetch q with
  | none => true
  | some items => items.isEmpty

/-- The page loop body of ImmonetScraper.scrape over a list of page
numbers: stop (returning what was collected so far) on a failed fetch or an
empty item list; otherwise parse each item (item-level parse errors yield
`none` and are skipped, as is any listing failing validate_listing) and
continue.  The second component records the pages actually requested. -/
def scrapePages {α : Type} (fetch : Nat → Option (List α))
    (parse : α → Option ListingData) : List Nat → List ListingData × List Nat
  | [] => ([], [])
  | p :: rest =>
    match fetch p with
    | none => ([], [p])
    | some items =>
      if items.isEmpty then ([], [p])
      else
        let parsed := items.filterMap (fun it =>
          match parse it with
          | some l => if validate_listing l then some l else none
          | none => none)
        let q := scrapePages fetch parse rest
        (parsed ++ q.1, p :: q.2)

/-- ImmonetScraper.scrape: `for page_num in range(1, 4)`. -/
def immonet_scrape {α : Type} (fetch : Nat → Option (List α))
    (parse : α → Option ListingData) : List ListingData × List Nat :=
  scrapePages fetch parse [1, 2, 3]

/-- C7: in every run of the Immonet adapter, the requested pages are a
prefix of [1, 2, 3] (strictly increasing from page 1, never a fourth page);
no page is requested after a failed or empty page; and a failed fetch of
page 1 yields the empty listing list, not an exception. -/
theorem immonet_scrape_pagination {α : Type} (fetch : Nat → Option (List α))
    (parse : α → Option ListingData) :
    ((immonet_scrape fetch parse).2 = [1] ∨ (immonet_scrape fetch parse).2 = [1, 2] ∨
        (immonet_scrape fetch parse).2 = [1, 2, 3]) ∧
      (∀ q ∈ (immonet_scrape fetch parse).2, 1 ≤ q ∧ q ≤ 3) ∧
      (∀ q ∈ (immonet_scrape fetch parse).2, stopsAt fetch q = true →
        ∀ p ∈ (immonet_scrape fetch parse).2, p ≤ q) ∧
      (fetch 1 = none → (immonet_scrape fetch parse).1 = []) := by
  rw [immonet_scrape]
  rcases h1 : fetch 1 with _ | items1
  · refine ⟨Or.inl ?_, ?_, ?_, fun _ => ?_⟩ <;> simp [scrapePages, h1]
  · by_cases e1 : items1.isEmpty = true
    · refine ⟨Or.inl ?_, ?_, ?_, fun hcon => ?_⟩ <;>
        simp_all [scrapePages, h1, e1, stopsAt]
    · have hs1 : stopsAt fetch 1 = false := by simp [stopsAt, h1, e1]
      rcases h2 : fetch 2 with _ | items2
      · refine ⟨Or.inr (Or.inl ?_), ?_, ?_, fun hcon => ?_⟩ <;>
          simp_all [scrapePages, h1, e1, h2, stopsAt]
      · by_cases e2 : items2.isEmpty = true
        · refine ⟨Or.inr (Or.inl ?_), ?_, ?_, fun hcon => ?_⟩ <;>
            simp_all [scrapePages, h1, e1, h2, e2, stopsAt]
        · have hs2 : stopsAt fetch 2 = false := by simp [stopsAt, h2, e2]
          rcases h3 : fetch 3 with _ | items3
          · refine ⟨Or.inr (Or.inr ?_), ?_, ?_, fun hcon => ?_⟩ <;>
              simp_all [scrapePages, h1, e1, h2, e2, h3, stopsAt]
          · by_cases e3 : items3.isEmpty = true
            · refine ⟨Or.inr (Or.inr ?_), ?_, ?_, fun hcon => ?_⟩ <;>
                simp_all [scrapePages, h1, e1, h2, e2, h3, e3, stopsAt]
            · have hs3 : stopsAt fetch 3 = false := by simp [stopsAt, h3, e3]
              refine ⟨Or.inr (Or.inr ?_), ?_, ?_, fun hcon => ?_⟩ <;>
                simp_all [scrapePages, h1, e1, h2, e2, h3, e3, stopsAt]

/-- Witness for C7 at a concrete input: an adapter whose first fetch fails
requests only page 1 and returns no listings. -/
theorem immonet_scrape_pagination_witness :
    (immonet_scrape (fun _ => (none : Option (List Unit))) (fun _ => none)).1 = [] ∧
      ((immonet_scrape (fun _ => (none : Option (List Unit))) (fun _ => none)).2 = [1] ∨
        (immonet_scrape (fun _ => (none : Option (List Unit))) (fun _ => none)).2 = [1, 2] ∨
        (immonet_scrape (fun _ => (none : Option (List Unit))) (fun _ => none)).2 = [1, 2, 3]) :=
  ⟨(immonet_scrape_pagination (fun _ => none) (fun _ => none)).2.2.2 rfl,
    (immonet_scrape_pagination (fun _ => none) (fun _ => none)).1⟩

/-! ## Notification dispatch and the scrape cycle (notifier.py send path,
scheduler.py ScraperScheduler.run_scrape_cycle) -/

/-- The two classes of exception caught by send_notification:
`telegram.error.TelegramError` and any other `Exception`. -/
inductive SendErr
  | telegramError
  | unexpected
deriving DecidableEq

/-- NotificationService.send_notification: the outcome of the transport
dispatch is its argument; both exception classes are caught and mapped to
`False`, success returns `True`, so the function is total and never
propagates an exception to the caller. -/
def send_notification (transport : Except SendErr Unit) : Bool :=
  match transport with
  | .ok _ => true
  | .error .telegramError => false
  | .error .unexpected => false

/-- The inner storage loop of the scrape phase: for each returned listing,
skip it when `is_duplicate`, otherwise `add_listing`. -/
def insertListings (now : Int) : DB → List ListingData → DB
  | db, [] => db
  | db, d :: rest =>
    insertListings now (if is_duplicate db d.url then db else add_listing db d now) rest

/-- The scraper loop of run_scrape_cycle: an adapter-level exception
(`.error`) is caught and the cycle continues with the remaining scrapers. -/
def scrapePhase (now : Int) : DB → List (Except Unit (List ListingData)) → DB
  | db, [] => db
  | db, .error _ :: rest => scrapePhase now db rest
  | db, .ok ds :: rest => scrapePhase now (insertListings now db ds) rest

/-- The notification sweep of run_scrape_cycle over the snapshot returned
by get_new_listings: attempt a send when the row passes the filters and
should_notify; `mark_notified` only on a successful send.  The second
component is the list of urls for which a send was attempted. -/
def notifyPhase (now : Int) (crit : Criteria) (transport : String → Except SendErr Unit) :
    DB → List Row → DB × List String
  | db, [] => (db, [])
  | db, r :: rest =>
    if apply_filters r.toListing crit && should_notify now r.toListing 24 then
      if send_notification (transport r.url) then
        let p := notifyPhase now crit transport (mark_notified db r.id now) rest
        (p.1, r.url :: p.2)
      else
        let p := notifyPhase now crit transport db rest
        (p.1, r.url :: p.2)
    else notifyPhase now crit transport db rest

/-- ScraperScheduler.run_scrape_cycle: store the scrapers\' output, then
sweep get_new_listings(24h) for filtered, notifiable rows. -/
def run_scrape_cycle (db : DB) (now : Int) (crit : Criteria)
    (transport : String → Except SendErr Unit)
    (scrapers : List (Except Unit (List ListingData))) : DB × List String :=
  let db1 := scrapePhase now db scrapers
  notifyPhase now crit transport db1 (get_new_listings db1 now 24)

/-- Database well-formedness: distinct row ids, all below the
AUTOINCREMENT counter. -/
def WF (db : DB) : Prop :=
  (db.rows.map (fun r => r.id)).Nodup ∧ ∀ r ∈ db.rows, r.id < db.next_id

/-! ### Cycle lemmas -/

theorem updIf_id (u : String) (d : ListingData) (now : Int) (r : Row) :
    (updIf u d now r).id = r.id := by
  rw [updIf]
  split <;> rfl

theorem add_listing_wf (db : DB) (d : ListingData) (now : Int) (h : WF db) :
    WF (add_listing db d now) := by
  obtain ⟨hnd, hbound⟩ := h
  rw [add_listing]
  by_cases hc : db.rows.any (fun r => r.url == d.url) = true
  · rw [if_pos hc]
    constructor
    · show ((db.rows.map (updIf d.url d now)).map (fun r => r.id)).Nodup
      rw [List.map_map]
      have hfun : ((fun r => r.id) ∘ updIf d.url d now) = fun (r : Row) => r.id := by
        funext r
        exact updIf_id d.url d now r
      rw [hfun]
      exact hnd
    · intro r hr
      obtain ⟨x, hx, hfx⟩ := List.mem_map.mp hr
      have hids : r.id = x.id := by
        rw [← hfx]
        exact updIf_id d.url d now x
      show r.id < db.next_id
      rw [hids]
      exact hbound x hx
  · rw [if_neg hc]
    constructor
    · show ((db.rows ++ [newRow db.next_id d now]).map (fun r => r.id)).Nodup
      rw [List.map_append]
      refine List.Nodup.append hnd (List.nodup_singleton _) ?_
      intro a ha hb
      obtain ⟨x, hx, hfx⟩ := List.mem_map.mp ha
      have hlt := hbound x hx
      rw [hfx] at hlt
      have hb2 : a = db.next_id := by
        simpa using hb
      rw [hb2] at hlt
      exact absurd hlt (lt_irrefl _)
    · intro r hr
      show r.id < db.next_id + 1
      rcases List.mem_append.mp hr with hx | hx
      · exact Nat.lt_succ_of_lt (hbound r hx)
      · have : r = newRow db.next_id d now := by simpa using hx
        rw [this]
        exact Nat.lt_succ_self _

theorem add_listing_fresh_mem (db : DB) (d : ListingData) (now : Int) (r : Row)
    (h : r ∈ db.rows) (hc : ¬ db.rows.any (fun x => x.url == d.url) = true) :
    r ∈ (add_listing db d now).rows := by
  rw [add_listing, if_neg hc]
  exact List.mem_append_left _ h

theorem insertListings_mem_wf (now : Int) (ds : List ListingData) :
    ∀ (db : DB) (r : Row), r ∈ db.rows → WF db →
      r ∈ (insertListings now db ds).rows ∧ WF (insertListings now db ds) := by
  induction ds with
  | nil =>
    intro db r h hwf
    exact ⟨h, hwf⟩
  | cons d rest ih =>
    intro db r h hwf
    rw [insertListings]
    by_cases hdup : is_duplicate db d.url = true
    · rw [if_pos hdup]
      exact ih db r h hwf
    · rw [if_neg hdup]
      have hc : ¬ db.rows.any (fun x => x.url == d.url) = true := hdup
      exact ih (add_listing db d now) r (add_listing_fresh_mem db d now r h hc)
        (add_listing_wf db d now hwf)

theorem scrapePhase_mem_wf (now : Int) (scrapers : List (Except Unit (List ListingData))) :
    ∀ (db : DB) (r : Row), r ∈ db.rows → WF db →
      r ∈ (scrapePhase now db scrapers).rows ∧ WF (scrapePhase now db scrapers) := by
  induction scrapers with
  | nil =>
    intro db r h hwf
    exact ⟨h, hwf⟩
  | cons sc rest ih =>
    intro db r h hwf
    cases sc with
    | error e =>
      rw [scrapePhase]
      exact ih db r h hwf
    | ok ds =>
      rw [scrapePhase]
      obtain ⟨hm, hw⟩ := insertListings_mem_wf now ds db r h hwf
      exact ih _ r hm hw

theorem markRow_of_ne (i : Nat) (now : Int) (r : Row) (h : ¬ r.id = i) :
    markRow i now r = r := by
  rw [markRow, if_neg]
  intro hb
  exact h (by simpa using hb)

theorem notifyPhase_mem (now : Int) (crit : Criteria)
    (transport : String → Except SendErr Unit) (snapshot : List Row) :
    ∀ (db : DB) (r : Row), r ∈ db.rows →
      (∀ s ∈ snapshot, s.id = r.id → send_notification (transport s.url) = false) →
      r ∈ (notifyPhase now crit transport db snapshot).1.rows := by
  induction snapshot with
  | nil =>
    intro db r h _
    exact h
  | cons s rest ih =>
    intro db r h hsafe
    have hsafe2 : ∀ x ∈ rest, x.id = r.id → send_notification (transport x.url) = false :=
      fun x hx => hsafe x (List.mem_cons_of_mem s hx)
    rw [notifyPhase]
    by_cases hcond : (apply_filters s.toListing crit && should_notify now s.toListing 24) = true
    · rw [if_pos hcond]
      by_cases hsend : send_notification (transport s.url) = true
      · rw [if_pos hsend]
        show r ∈ (notifyPhase now crit transport (mark_notified db s.id now) rest).1.rows
        have hne : ¬ r.id = s.id := by
          intro he
          have := hsafe s (List.mem_cons_self s rest) he.symm
          rw [hsend] at this
          cases this
        have hmem2 : r ∈ (mark_notified db s.id now).rows := by
          rw [mark_notified]
          show r ∈ db.rows.map (markRow s.id now)
          have : markRow s.id now r = r := markRow_of_ne s.id now r hne
          rw [← this]
          exact List.mem_map_of_mem _ h
        exact ih _ r hmem2 hsafe2
      · rw [if_neg hsend]
        show r ∈ (notifyPhase now crit transport db rest).1.rows
        exact ih db r h hsafe2
    · rw [if_neg hcond]
      exact ih db r h hsafe2

/-- C8: send_notification maps every transport error to `False` without
raising; a stored unnotified row whose send fails is untouched by the cycle
(`mark_notified` is not called for it), so it is still unnotified
afterwards and is returned again by any later get_new_listings query while
its `scraped_at` is inside the recency window. -/
theorem send_failure_keeps_unnotified (db : DB) (now now2 : Int) (crit : Criteria)
    (transport : String → Except SendErr Unit)
    (scrapers : List (Except Unit (List ListingData))) (r : Row)
    (hwf : WF db) (hmem : r ∈ db.rows) (hnn : r.notified_at = none)
    (hfail : send_notification (transport r.url) = false)
    (hwin : scrapedAfter r.scraped_at (now2 - 24 * 3600) = true) :
    (∀ e : SendErr, send_notification (.error e) = false) ∧
      r ∈ (run_scrape_cycle db now crit transport scrapers).1.rows ∧
      r ∈ get_new_listings (run_scrape_cycle db now crit transport scrapers).1 now2 24 := by
  obtain ⟨hmem1, hwf1⟩ := scrapePhase_mem_wf now scrapers db r hmem hwf
  have hsafe : ∀ s ∈ get_new_listings (scrapePhase now db scrapers) now 24,
      s.id = r.id → send_notification (transport s.url) = false := by
    intro s hs hid
    have hsmem : s ∈ (scrapePhase now db scrapers).rows := (List.mem_filter.mp hs).1
    have hsr : s = r := List.inj_on_of_nodup_map hwf1.1 hsmem hmem1 hid
    rw [hsr]
    exact hfail
  have hmem2 : r ∈ (run_scrape_cycle db now crit transport scrapers).1.rows :=
    notifyPhase_mem now crit transport (get_new_listings (scrapePhase now db scrapers) now 24)
      (scrapePhase now db scrapers) r hmem1 hsafe
  refine ⟨fun e => by cases e <;> rfl, hmem2, ?_⟩
  rw [get_new_listings]
  refine List.mem_filter.mpr ⟨hmem2, ?_⟩
  rw [hwin, hnn]
  rfl

/-- A concrete stored row used by the witnesses. -/
def exRow : Row :=
  { site_id := some "immonet_row", url := "https://example.org/expose/2",
    address := none, rooms := none, floor := none, price := none, area := none,
    description := none, scraped_at := .aware 0, notified_at := none,
    is_active := 1, id := 0, created_at := 0, updated_at := 0 }

/-- Witness for C8 at a concrete input: with a failing transport and no
scrapers, the stored row survives the cycle and is returned again. -/
theorem send_failure_keeps_unnotified_witness :
    exRow ∈ (run_scrape_cycle ⟨[exRow], 1⟩ 0 DEFAULT_CRITERIA
        (fun _ => .error .telegramError) []).1.rows ∧
      exRow ∈ get_new_listings (run_scrape_cycle ⟨[exRow], 1⟩ 0 DEFAULT_CRITERIA
        (fun _ => .error .telegramError) []).1 0 24 :=
  ⟨(send_failure_keeps_unnotified ⟨[exRow], 1⟩ 0 0 DEFAULT_CRITERIA
      (fun _ => .error .telegramError) [] exRow ⟨by decide, by decide⟩
      (List.mem_singleton.mpr rfl) rfl rfl (by decide)).2.1,
    (send_failure_keeps_unnotified ⟨[exRow], 1⟩ 0 0 DEFAULT_CRITERIA
      (fun _ => .error .telegramError) [] exRow ⟨by decide, by decide⟩
      (List.mem_singleton.mpr rfl) rfl rfl (by decide)).2.2⟩

/-- C2: one cycle over two adapters — one returning a single fresh matching
notifiable record, the other a record whose url is already stored (its only
row not notification-eligible) — attempts exactly one send, stores exactly
one new row (the duplicate is skipped by is_duplicate and never upserted,
so the stored row is byte-for-byte unchanged), and marks exactly the new
row notified when the send succeeds. -/
theorem cycle_two_adapters (db : DB) (row0 : Row) (d1 d2 : ListingData) (now : Int)
    (crit : Criteria) (transport : String → Except SendErr Unit)
    (hrows : db.rows = [row0]) (hid : row0.id < db.next_id)
    (hnotelig : should_notify now row0.toListing 24 = false)
    (hdup : d2.url = row0.url) (hfresh : (d1.url == row0.url) = false)
    (hfilter : apply_filters (newRow db.next_id d1 now).toListing crit = true)
    (hshould : should_notify now (newRow db.next_id d1 now).toListing 24 = true)
    (hwindow : scrapedAfter (d1.scraped_at.getD (.aware now)) (now - 24 * 3600) = true) :
    (run_scrape_cycle db now crit transport [.ok [d1], .ok [d2]]).2 = [d1.url] ∧
      (run_scrape_cycle db now crit transport [.ok [d1], .ok [d2]]).1.rows
        = [row0, if send_notification (transport d1.url) = true
            then { newRow db.next_id d1 now with notified_at := some now }
            else newRow db.next_id d1 now] ∧
      (send_notification (transport d1.url) = true →
        ∃ r1, find_by_url
            (run_scrape_cycle db now crit transport [.ok [d1], .ok [d2]]).1.rows d1.url
          = some r1 ∧ r1.notified_at = some now) := by
  have hf2 : (row0.url == d1.url) = false := by
    rw [beq_eq_false_iff_ne] at hfresh ⊢
    exact fun h => hfresh h.symm
  have hdupf : ¬ is_duplicate db d1.url = true := by
    rw [is_duplicate, hrows]
    simp [hf2]
  have hanyf : ¬ db.rows.any (fun r => r.url == d1.url) = true := hdupf
  have hadd : add_listing db d1 now
      = ⟨[row0, newRow db.next_id d1 now], db.next_id + 1⟩ := by
    rw [add_listing, if_neg hanyf, hrows]
    rfl
  have hdup2 : is_duplicate
      (⟨[row0, newRow db.next_id d1 now], db.next_id + 1⟩ : DB) d2.url = true := by
    show ([row0, newRow db.next_id d1 now].any (fun r => r.url == d2.url)) = true
    have h0 : (row0.url == d2.url) = true := beq_iff_eq.mpr hdup.symm
    simp [h0]
  have hdb1 : scrapePhase now db [.ok [d1], .ok [d2]]
      = ⟨[row0, newRow db.next_id d1 now], db.next_id + 1⟩ := by
    show insertListings now
        (insertListings now db [d1]) [d2] = _
    show insertListings now
        (insertListings now (if is_duplicate db d1.url then db else add_listing db d1 now) [])
        [d2] = _
    rw [if_neg hdupf]
    show insertListings now (add_listing db d1 now) [d2] = _
    rw [hadd]
    show (if is_duplicate (⟨[row0, newRow db.next_id d1 now], db.next_id + 1⟩ : DB) d2.url
        then (⟨[row0, newRow db.next_id d1 now], db.next_id + 1⟩ : DB)
        else add_listing ⟨[row0, newRow db.next_id d1 now], db.next_id + 1⟩ d2 now) = _
    rw [if_pos hdup2]
  have hcondnew : (scrapedAfter (newRow db.next_id d1 now).scraped_at (now - 24 * 3600) &&
      (newRow db.next_id d1 now).notified_at.isNone) = true := by
    show (scrapedAfter (d1.scraped_at.getD (.aware now)) (now - 24 * 3600) &&
      (none : Option Int).isNone) = true
    rw [hwindow]
    rfl
  have hsnap : get_new_listings
      (⟨[row0, newRow db.next_id d1 now], db.next_id + 1⟩ : DB) now 24
      = (if (scrapedAfter row0.scraped_at (now - 24 * 3600) && row0.notified_at.isNone) = true
         then [row0, newRow db.next_id d1 now] else [newRow db.next_id d1 now]) := by
    rw [get_new_listings]
    show List.filter _ [row0, newRow db.next_id d1 now] = _
    by_cases hb : (scrapedAfter row0.scraped_at (now - 24 * 3600) &&
        row0.notified_at.isNone) = true
    · rw [if_pos hb, List.filter_cons, if_pos hb, List.filter_cons,
        if_pos hcondnew, List.filter_nil]
    · rw [if_neg hb, List.filter_cons, if_neg hb, List.filter_cons,
        if_pos hcondnew, List.filter_nil]
  have hcond0 : ¬ (apply_filters row0.toListing crit &&
      should_notify now row0.toListing 24) = true := by
    rw [hnotelig, Bool.and_false]
    exact Bool.false_ne_true
  have hcond1 : (apply_filters (newRow db.next_id d1 now).toListing crit &&
      should_notify now (newRow db.next_id d1 now).toListing 24) = true := by
    rw [hfilter, hshould]
    rfl
  have hmark : mark_notified (⟨[row0, newRow db.next_id d1 now], db.next_id + 1⟩ : DB)
      (newRow db.next_id d1 now).id now
      = ⟨[row0, { newRow db.next_id d1 now with notified_at := some now }],
          db.next_id + 1⟩ := by
    rw [mark_notified]
    show DB.mk ([row0, newRow db.next_id d1 now].map
      (markRow (newRow db.next_id d1 now).id now)) (db.next_id + 1) = _
    have h0 : markRow (newRow db.next_id d1 now).id now row0 = row0 :=
      markRow_of_ne _ now row0 (Nat.ne_of_lt hid)
    have h1 : markRow (newRow db.next_id d1 now).id now (newRow db.next_id d1 now)
        = { newRow db.next_id d1 now with notified_at := some now } := by
      rw [markRow, if_pos (beq_self_eq_true _)]
    rw [List.map_cons, List.map_cons, List.map_nil, h0, h1]
  have hskip : ∀ (dbx : DB) (rest : List Row),
      notifyPhase now crit transport dbx (row0 :: rest)
        = notifyPhase now crit transport dbx rest := by
    intro dbx rest
    simp only [notifyPhase]
    rw [if_neg hcond0]
  have hnotifyNew : ∀ dbx : DB,
      notifyPhase now crit transport dbx [newRow db.next_id d1 now]
        = if send_notification (transport d1.url) = true
          then (mark_notified dbx (newRow db.next_id d1 now).id now, [d1.url])
          else (dbx, [d1.url]) := by
    intro dbx
    simp only [notifyPhase]
    rw [if_pos hcond1, show (newRow db.next_id d1 now).url = d1.url from rfl]
  have hnp : notifyPhase now crit transport
      (⟨[row0, newRow db.next_id d1 now], db.next_id + 1⟩ : DB)
      (if (scrapedAfter row0.scraped_at (now - 24 * 3600) && row0.notified_at.isNone) = true
       then [row0, newRow db.next_id d1 now] else [newRow db.next_id d1 now])
      = if send_notification (transport d1.url) = true
        then (⟨[row0, { newRow db.next_id d1 now with notified_at := some now }],
            db.next_id + 1⟩, [d1.url])
        else (⟨[row0, newRow db.next_id d1 now], db.next_id + 1⟩, [d1.url]) := by
    by_cases hb : (scrapedAfter row0.scraped_at (now - 24 * 3600) &&
        row0.notified_at.isNone) = true
    · rw [if_pos hb, hskip, hnotifyNew, hmark]
    · rw [if_neg hb, hnotifyNew, hmark]
  have hrun : run_scrape_cycle db now crit transport [.ok [d1], .ok [d2]]
      = if send_notification (transport d1.url) = true
        then (⟨[row0, { newRow db.next_id d1 now with notified_at := some now }],
            db.next_id + 1⟩, [d1.url])
        else (⟨[row0, newRow db.next_id d1 now], db.next_id + 1⟩, [d1.url]) := by
    show notifyPhase now crit transport (scrapePhase now db [.ok [d1], .ok [d2]])
        (get_new_listings (scrapePhase now db [.ok [d1], .ok [d2]]) now 24) = _
    rw [hdb1, hsnap, hnp]
  refine ⟨?_, ?_, ?_⟩
  · rw [hrun]
    by_cases hsend : send_notification (transport d1.url) = true
    · rw [if_pos hsend]
    · rw [if_neg hsend]
  · rw [hrun]
    by_cases hsend : send_notification (transport d1.url) = true
    · rw [if_pos hsend, if_pos hsend]
    · rw [if_neg hsend, if_neg hsend]
  · intro hsend
    rw [hrun, if_pos hsend]
    refine ⟨{ newRow db.next_id d1 now with notified_at := some now }, ?_, rfl⟩
    have hn : ¬ ((row0.url == d1.url) = true) := by
      rw [hf2]
      exact Bool.false_ne_true
    have hp : (({ newRow db.next_id d1 now with notified_at := some now } : Row).url
        == d1.url) = true := beq_self_eq_true _
    rw [find_by_url]
    rw [@List.find?_cons_of_neg Row (fun r => r.url == d1.url) row0
      [{ newRow db.next_id d1 now with notified_at := some now }] hn]
    rw [@List.find?_cons_of_pos Row (fun r => r.url == d1.url)
      { newRow db.next_id d1 now with notified_at := some now } [] hp]

/-- The stored row for the C2 witness: already notified, hence not
notification-eligible. -/
def exRowSeen : Row :=
  { site_id := some "immonet_seen", url := "https://example.org/expose/9",
    address := none, rooms := none, floor := none, price := none, area := none,
    description := none, scraped_at := .aware 0, notified_at := some 0,
    is_active := 1, id := 0, created_at := 0, updated_at := 0 }

/-- The fresh matching record for the C2 witness. -/
def exD1 : ListingData :=
  ⟨some "immonet_new", "https://example.org/expose/10", none, none, none, none,
    none, none, some (.aware 0), none⟩

/-- The duplicate record for the C2 witness: same url as the stored row. -/
def exD2 : ListingData :=
  ⟨some "immonet_dup", "https://example.org/expose/9", none, none, none, none,
    none, none, some (.aware 0), none⟩

/-- Witness for C2 at a concrete input: exactly one send attempt is made,
for the fresh record\'s url. -/
theorem cycle_two_adapters_witness :
    (run_scrape_cycle ⟨[exRowSeen], 1⟩ 0 DEFAULT_CRITERIA (fun _ => .ok ())
        [.ok [exD1], .ok [exD2]]).2 = [exD1.url] :=
  (cycle_two_adapters ⟨[exRowSeen], 1⟩ exRowSeen exD1 exD2 0 DEFAULT_CRITERIA
      (fun _ => .ok ()) rfl (by decide) (by decide) rfl (by decide) (by decide)
      (by decide) (by decide)).1

/-- Witness for C5 at a concrete input: the example listing satisfies the
spec-side matching predicate under the merged example criteria. -/
theorem apply_filters_spec_witness :
    MatchesSpec exampleListing (mergeCriteria DEFAULT_CRITERIA exampleOverride) :=
  (apply_filters_spec.1 exampleListing
    (mergeCriteria DEFAULT_CRITERIA exampleOverride)).mp apply_filters_spec.2

end FlatScraper
